import Mathlib

/-!
Verification of the websocket relay core of `src/aframe_mcp/bridge_server.py`
(the `BridgeServer` class).  The Python module is embedded shallowly:

* JSON atoms become `JVal`; a parsed JSON object becomes an association list
  `JObj`; Python truthiness (`if not x`) becomes `JVal.truthy` / `optTruthy`.
* `self.pending : Dict[str, PendingMessage]` becomes an association list
  `Table` with dict-style `lookupKey` / `insertOv` (assignment overwrites in
  place) / `eraseKey` (pop); an `asyncio.Future` becomes the
  single-assignment cell `FutSt`.
* The synchronous bodies of `_register_scene`'s admission block,
  `_flush_pending`, the control loop's per-frame dispatch, and the control
  handler's `finally` cleanup become pure functions returning the new state
  plus the observable actions (sends, closes, resolutions, cancellations).
* The concurrent parts (who may touch the shared state while a control
  handler awaits its future, and the scene-task lifecycle) become explicit
  small-step machines, with each transition annotated with the source lines
  it embeds.
-/

namespace AFrameBridge

/-- A JSON atom as the relay sees it.  Command and reply payloads are opaque
to the relay (spec §1), so atoms suffice: the relay only ever reads the
`requestId`, `role` and `sceneId` fields and otherwise forwards objects
verbatim. -/
inductive JVal where
  | jnull
  | jbool (b : Bool)
  | jint (n : Int)
  | jstr (s : String)
deriving DecidableEq, Repr

/-- Python truthiness of a JSON atom: `None`, `False`, `0` and `""` are
falsy, everything else truthy.  This is what `if not request_id:` tests at
bridge_server.py:96 and bridge_server.py:133. -/
def JVal.truthy : JVal → Bool
  | .jnull => false
  | .jbool b => b
  | .jint n => n != 0
  | .jstr s => s != ""

/-- A parsed JSON object: fields in source order. -/
abbrev JObj := List (String × JVal)

/-- Python `dict.get(k)`: the first binding of `k`, if any. -/
def jget (m : JObj) (k : String) : Option JVal :=
  match m with
  | [] => none
  | e :: rest => if e.1 = k then some e.2 else jget rest k

/-- Truthiness of `dict.get(k)` (which yields `None` when absent). -/
def optTruthy : Option JVal → Bool
  | none => false
  | some v => v.truthy

/-- State of one `asyncio.Future`: unresolved, resolved by `set_result`,
or cancelled.  `resolved` and `cancelled` both count as `done()`. -/
inductive FutSt where
  | unresolved
  | resolved (m : JObj)
  | cancelled
deriving DecidableEq, Repr

/-- Whether the future is `done()` in the asyncio sense. -/
def FutSt.done : FutSt → Bool
  | .unresolved => false
  | _ => true

/-- `PendingMessage` (bridge_server.py:27-30): the waiter future and the
control connection (identified by a numeric id) that owns the request. -/
structure PendingMessage where
  future : FutSt
  client : Nat
deriving DecidableEq, Repr

/-- `self.pending : Dict[str, PendingMessage]` (bridge_server.py:39) as an
insertion-ordered association list.  Keys are the `requestId` JSON values
the clients chose. -/
abbrev Table := List (JVal × PendingMessage)

/-- Dict lookup: first binding of the key. -/
def lookupKey (k : JVal) : Table → Option PendingMessage
  | [] => none
  | e :: rest => if e.1 = k then some e.2 else lookupKey k rest

/-- Dict `pop(k, None)`: remove the binding of `k`, if present. -/
def eraseKey (k : JVal) : Table → Table
  | [] => []
  | e :: rest => if e.1 = k then rest else e :: eraseKey k rest

/-- Dict assignment `d[k] = v`: overwrite in place, else append. -/
def insertOv (k : JVal) (v : PendingMessage) : Table → Table
  | [] => [(k, v)]
  | e :: rest => if e.1 = k then (k, v) :: rest else e :: insertOv k v rest

/-- A Python dict never holds two bindings of the same key. -/
def keysNodup (p : Table) : Prop := (p.map (·.1)).Nodup

instance (p : Table) : Decidable (keysNodup p) := by
  unfold keysNodup
  infer_instance

/-- The mutable relay state of `BridgeServer.__init__` (bridge_server.py:36-40):
the scene slot, its id, and the pending table.  `scene` holds at most one
connection by construction — it is a single optional reference. -/
structure BridgeState where
  scene : Option Nat
  sceneId : Option JVal
  pending : Table
deriving DecidableEq, Repr

/-! ### Message objects built by the relay, field order as in the source -/

/-- Rejection payload for a second scene (bridge_server.py:72-77). -/
def sceneRejectObj : JObj :=
  [("status", .jstr "error"), ("message", .jstr "A scene is already connected")]

/-- Ready acknowledgement to an admitted scene (bridge_server.py:84). -/
def sceneReadyObj (sid : JVal) : JObj :=
  [("status", .jstr "ready"), ("sceneId", sid)]

/-- Parse-failure reply to a control client (bridge_server.py:122-129). -/
def invalidPayloadObj : JObj :=
  [("status", .jstr "error"), ("message", .jstr "Invalid command payload")]

/-- Missing/falsy `requestId` reply to a control client
(bridge_server.py:134-141). -/
def mustIncludeObj : JObj :=
  [("status", .jstr "error"), ("message", .jstr "Commands must include requestId")]

/-- No-scene reply to a control client (bridge_server.py:145-153). -/
def noSceneObj (rid : JVal) : JObj :=
  [("requestId", rid), ("status", .jstr "error"),
   ("message", .jstr "No A-Frame scene is connected")]

/-- Scene-disconnected reply synthesized when the forward send fails
(bridge_server.py:162-170). -/
def sendFailObj (rid : JVal) : JObj :=
  [("requestId", rid), ("status", .jstr "error"),
   ("message", .jstr "Scene disconnected")]

/-- Timeout reply (bridge_server.py:177-185). -/
def timeoutObj (rid : JVal) : JObj :=
  [("requestId", rid), ("status", .jstr "error"),
   ("message", .jstr "Timed out waiting for scene response")]

/-- Synthetic reply `_flush_pending` resolves a waiter with
(bridge_server.py:202-208). -/
def flushObj (rid : JVal) (message : String) : JObj :=
  [("requestId", rid), ("status", .jstr "error"), ("message", .jstr message)]

/-! ### `_register_scene` admission block (bridge_server.py:69-85) -/

/-- Observable connection-level actions. -/
inductive Action where
  | send (conn : Nat) (payload : JObj)
  | close (conn : Nat) (code : Nat) (reason : String)
deriving DecidableEq, Repr

/-- The admission block of `_register_scene` (bridge_server.py:69-85),
executed under `scene_lock`: if a scene is already registered, send the
rejection payload and close the newcomer with code 4003, leaving the state
untouched; otherwise install the newcomer and its `sceneId` (default
`"default"` when absent or falsy, line 82) and acknowledge readiness. -/
def registerSceneAdmission (st : BridgeState) (ws : Nat) (handshake : JObj) :
    BridgeState × List Action :=
  match st.scene with
  | some _ =>
      (st, [.send ws sceneRejectObj, .close ws 4003 "Scene already connected"])
  | none =>
      let sid : JVal :=
        match jget handshake "sceneId" with
        | some v => if v.truthy then v else .jstr "default"
        | none => .jstr "default"
      ({ st with scene := some ws, sceneId := some sid },
       [.send ws (sceneReadyObj sid)])

/-! ### Scene read loop, one frame (bridge_server.py:88-105) -/

/-- What one iteration of the scene read loop does with a frame. -/
inductive SceneOutcome where
  /-- `continue`: log (if anything) and read the next frame; the connection
  stays open. -/
  | looped
  /-- The frame's `requestId` matched a pending entry whose future was not
  yet done: the entry is popped and its waiter resolved with the full parsed
  message (bridge_server.py:100-105). -/
  | resolvedReply (rid : JVal) (m : JObj)
  /-- `set_result` was called on a future that was already done (cancelled
  by a timeout whose handler has not yet popped the entry):
  `InvalidStateError` propagates, killing the scene task.  The entry had
  already been popped by line 100. -/
  | crashed (rid : JVal)
deriving DecidableEq, Repr

/-- One iteration of `async for raw in websocket` in `_register_scene`
(bridge_server.py:88-105).  `raw = none` models a frame that failed
`json.loads` (line 91). -/
def sceneHandleFrame (st : BridgeState) (raw : Option JObj) :
    BridgeState × SceneOutcome :=
  match raw with
  | none => (st, .looped)
  | some message =>
    match jget message "requestId" with
    | none => (st, .looped)
    | some rid =>
      if rid.truthy then
        match lookupKey rid st.pending with
        | none => (st, .looped)
        | some pm =>
          let st' := { st with pending := eraseKey rid st.pending }
          if pm.future = .unresolved then (st', .resolvedReply rid message)
          else (st', .crashed rid)
      else (st, .looped)

/-! ### Control loop, one frame up to the forward (bridge_server.py:118-172) -/

/-- What the control loop does with one inbound frame, before any await on
the created future. -/
inductive McpOutcome where
  /-- An immediate reply was sent on this control connection and the loop
  continues with the next frame. -/
  | replied (payload : JObj)
  /-- A pending entry was registered and the raw command was sent to the
  scene; the handler now awaits the future (the `cmdStep` machine below). -/
  | forwarded (payload : JObj)
deriving DecidableEq, Repr

/-- One iteration of `async for raw in websocket` in `_register_mcp`
(bridge_server.py:118-172), up to and including the forward send.
`raw = none` models a frame that failed `json.loads` (line 121);
`sceneSendOk = false` models `self.scene.send` raising `ConnectionClosed`
(line 161). -/
def mcpHandleFrame (st : BridgeState) (ws : Nat) (raw : Option JObj)
    (sceneSendOk : Bool) : BridgeState × McpOutcome :=
  match raw with
  | none => (st, .replied invalidPayloadObj)
  | some message =>
    match jget message "requestId" with
    | none => (st, .replied mustIncludeObj)
    | some rid =>
      if rid.truthy then
        match st.scene with
        | none => (st, .replied (noSceneObj rid))
        | some _ =>
          let pending' := insertOv rid ⟨.unresolved, ws⟩ st.pending
          if sceneSendOk then
            ({ st with pending := pending' }, .forwarded message)
          else
            ({ st with pending := eraseKey rid pending' },
             .replied (sendFailObj rid))
      else (st, .replied mustIncludeObj)

/-! ### `_flush_pending` (bridge_server.py:199-209) -/

/-- `_flush_pending(message)` (bridge_server.py:199-209): iterate over a
snapshot of the table; for each entry whose future is not yet done, resolve
it with the synthetic error object; pop every key.  Returns the final table
and the list of resolutions performed, in order. -/
def flushPending (message : String) (p : Table) : Table × List JObj :=
  p.foldl
    (fun acc e =>
      (eraseKey e.1 acc.1,
       if e.2.future.done then acc.2 else acc.2 ++ [flushObj e.1 message]))
    (p, [])

/-! ### Control handler `finally` cleanup (bridge_server.py:193-197) -/

/-- The `finally` block of `_register_mcp` (bridge_server.py:193-197):
collect the keys of the entries owned by this connection, then pop each and
cancel its future.  Returns the remaining table and the keys whose futures
were cancelled, in order; no future is resolved. -/
def cancelOwned (ws : Nat) (p : Table) : Table × List JVal :=
  let toCancel := (p.filter (fun e => e.2.client = ws)).map (·.1)
  toCancel.foldl
    (fun acc k =>
      match lookupKey k acc.1 with
      | some _ => (eraseKey k acc.1, acc.2 ++ [k])
      | none => acc)
    (p, [])

/-! ### Per-command lifecycle machine (bridge_server.py:156-190)

Once a control handler has registered a pending entry for request id `rid`
and forwarded the command (lines 156-160 succeeded), it awaits
`asyncio.wait_for(future, RESPONSE_TIMEOUT)` (line 175).  While it is
suspended, the other tasks of the single-threaded event loop can touch the
shared state.  `CmdState` tracks everything relevant to this one command:
whether its table entry is still present, its future, the handler's
position, and the replies the handler has sent to its client for this
command.  `Ev` enumerates the atomic steps the loop can interleave. -/

/-- Position of the owning control handler within lines 175-190. -/
inductive Phase where
  /-- Suspended at `await asyncio.wait_for(future, ...)` (line 175). -/
  | waiting
  /-- `TimeoutError` was raised (line 176); the timeout reply is about to be
  sent (line 177). -/
  | wokeTimeout
  /-- The timeout reply has been sent; the pop at line 186 has not run yet
  (line 177's send is an await point, so other tasks may run in between). -/
  | sentTimeout
  /-- The handler finished this command and is back at the top of its loop. -/
  | done
deriving DecidableEq, Repr

/-- The view of the shared state relevant to one forwarded command. -/
structure CmdState where
  /-- Whether `rid` is still bound in `self.pending`. -/
  entry : Bool
  /-- The command's future. -/
  fut : FutSt
  /-- Where the owning handler stands. -/
  phase : Phase
  /-- Replies sent to the owning client for this command, in order. -/
  replies : List JObj
deriving DecidableEq, Repr

/-- Atomic events that can act on a forwarded command's state. -/
inductive Ev where
  /-- The scene loop processes one parsed frame `m` (lines 88-105). -/
  | sceneFrame (m : JObj)
  /-- The scene task's `finally` runs `_flush_pending` (lines 112, 199-209),
  because the scene disconnected or its task died. -/
  | flush
  /-- The `wait_for` timer for this command elapses: the future is cancelled
  and `TimeoutError` is raised in the waiting handler (lines 175-176). -/
  | timerFire
  /-- The owning control handler runs until its next await point. -/
  | handlerStep
deriving DecidableEq, Repr

/-- One atomic event acting on one command's view of the shared state.

`sceneFrame m` embeds lines 88-105 restricted to this command: a frame whose
`requestId` is absent, falsy, or a different id leaves this command's state
unchanged (it pops some other key or is discarded).  A matching frame pops
the entry (line 100) and then resolves the future (line 105); if the future
is already done (cancelled by the timeout during the line-177 send window),
`set_result` raises instead, after the pop — the scene task dies and its
`finally` flush is modeled by a subsequent `flush` event.

`flush` embeds `_flush_pending` (lines 199-209) restricted to this entry:
if present and unresolved, resolve with the `"Scene disconnected"` object
and pop; if present and done, just pop.

`timerFire` embeds `asyncio.wait_for`'s timeout: it only fires while the
handler still waits and the future is unresolved (a resolved future makes
`wait_for` return the result instead).

`handlerStep` embeds the handler resuming: from `waiting` on a resolved
future it sends the result verbatim and pops (lines 189-190 — the pop is a
no-op since every resolver pops first); after a timeout it sends the
timeout reply (line 177) and, in a separate step, pops the entry
(line 186). -/
def cmdStep (rid : JVal) (s : CmdState) : Ev → CmdState
  | .sceneFrame m =>
    (match jget m "requestId" with
     | some v =>
       if v.truthy ∧ v = rid then
         if s.entry then
           match s.fut with
           | .unresolved => { s with entry := false, fut := .resolved m }
           | _ => { s with entry := false }
         else s
       else s
     | none => s)
  | .flush =>
    if s.entry then
      match s.fut with
      | .unresolved =>
          { s with entry := false, fut := .resolved (flushObj rid "Scene disconnected") }
      | _ => { s with entry := false }
    else s
  | .timerFire =>
    (match s.phase, s.fut with
     | .waiting, .unresolved => { s with fut := .cancelled, phase := .wokeTimeout }
     | _, _ => s)
  | .handlerStep =>
    (match s.phase, s.fut with
     | .waiting, .resolved m => { s with phase := .done, replies := s.replies ++ [m] }
     | .wokeTimeout, _ =>
         { s with phase := .sentTimeout, replies := s.replies ++ [timeoutObj rid] }
     | .sentTimeout, _ => { s with entry := false, phase := .done }
     | _, _ => s)

/-- State right after lines 156-160 succeed: entry registered, future fresh,
handler about to wait, nothing sent yet. -/
def cmdInit : CmdState := ⟨true, .unresolved, .waiting, []⟩

/-- Run a schedule of events from a state. -/
def cmdRun (rid : JVal) (s : CmdState) (evs : List Ev) : CmdState :=
  evs.foldl (cmdStep rid) s

/-- A schedule suffix that is guaranteed to occur in a real execution:
`wait_for`'s timer is bounded, and the event loop eventually runs the
handler to completion. -/
def fairSuffix : List Ev := [.timerFire, .handlerStep, .handlerStep, .handlerStep]

/-! ### Scene-task lifecycle machine (bridge_server.py:66-112)

`SceneSys` tracks the scene slot (`self.scene`) and the phase of every
scene-role connection task, indexed by connection id.  The transitions are
the atomic sections of `_register_scene` between await points; the
`scene_lock` makes the admission block and the clearing block atomic. -/

/-- Phase of one scene-role connection task inside `_register_scene`. -/
inductive SPhase where
  /-- Handshake done with `role == "scene"`; about to run the admission
  block (line 69). -/
  | arriving
  /-- The admission block found the slot occupied: rejection sent, the
  connection closed, the coroutine returned (lines 70-80). -/
  | rejected
  /-- Installed in the slot (lines 81-82); the ready acknowledgement send
  (line 84) is in flight. -/
  | acking
  /-- Inside the read loop (lines 87-105). -/
  | reading
  /-- The read loop exited (close or crash); the `finally` block is about to
  run under the lock (lines 108-109). -/
  | clearing
  /-- The ready acknowledgement send at line 84 raised: the coroutine died
  before entering the `try`, so its `finally` never runs and the slot is
  never cleared. -/
  | deadNoClear
  /-- The `finally` block ran: slot cleared, pending flushed
  (lines 110-112). -/
  | cleared
deriving DecidableEq, Repr

/-- The scene slot plus the phase of every scene task, by connection id. -/
structure SceneSys where
  slot : Option Nat
  tasks : Nat → Option SPhase

/-- Pointwise update of the task map. -/
def updTask (f : Nat → Option SPhase) (c : Nat) (v : Option SPhase) :
    Nat → Option SPhase :=
  fun d => if d = c then v else f d

/-- Atomic transitions of the scene-task lifecycle, each an atomic section
of `_register_scene` (the admission and clearing blocks hold
`self.scene_lock`). -/
inductive SStep : SceneSys → SceneSys → Prop where
  /-- A new connection completes a scene handshake (lines 58-60). -/
  | connect (s : SceneSys) (c : Nat) : s.tasks c = none →
      SStep s ⟨s.slot, updTask s.tasks c (some .arriving)⟩
  /-- Admission with an empty slot (lines 69, 81-82): install `c`. -/
  | install (s : SceneSys) (c : Nat) : s.tasks c = some .arriving →
      s.slot = none → SStep s ⟨some c, updTask s.tasks c (some .acking)⟩
  /-- Admission with an occupied slot (lines 70-80): reject `c`, slot
  untouched. -/
  | reject (s : SceneSys) (c d : Nat) : s.tasks c = some .arriving →
      s.slot = some d → SStep s ⟨s.slot, updTask s.tasks c (some .rejected)⟩
  /-- The ready acknowledgement send (line 84) succeeds. -/
  | ackOk (s : SceneSys) (c : Nat) : s.tasks c = some .acking →
      SStep s ⟨s.slot, updTask s.tasks c (some .reading)⟩
  /-- The ready acknowledgement send (line 84) raises: the task dies without
  ever reaching the `try`/`finally`, so the slot is left as is. -/
  | ackFail (s : SceneSys) (c : Nat) : s.tasks c = some .acking →
      SStep s ⟨s.slot, updTask s.tasks c (some .deadNoClear)⟩
  /-- The read loop ends (connection closed or a frame handler raised);
  control transfers to the `finally` (lines 106-108). -/
  | disconnect (s : SceneSys) (c : Nat) : s.tasks c = some .reading →
      SStep s ⟨s.slot, updTask s.tasks c (some .clearing)⟩
  /-- The `finally` block runs under the lock (lines 109-112): it sets
  `self.scene = None` unconditionally. -/
  | clearRun (s : SceneSys) (c : Nat) : s.tasks c = some .clearing →
      SStep s ⟨none, updTask s.tasks c (some .cleared)⟩

/-- The initial system: empty slot, no scene tasks (bridge_server.py:36-40). -/
def sceneSysInit : SceneSys := ⟨none, fun _ => none⟩

/-- States reachable from the initial system. -/
inductive Reach : SceneSys → Prop where
  | init : Reach sceneSysInit
  | step {s s' : SceneSys} : Reach s → SStep s s' → Reach s'

/-- Phases during which the task's connection must own the slot. -/
def SPhase.active : SPhase → Bool
  | .acking | .reading | .clearing => true
  | _ => false

/-! ### Lock discipline (bridge_server.py:40, 69, 109)

Each access the connection-handling code of `BridgeServer` (lines 66-209;
`__init__`'s construction of the fields aside) makes to the two shared
structures, annotated with whether `self.scene_lock` is held there, whether
it is a write, and whether it is a read used for a control decision.  One
record per source line that touches `self.scene`/`self.scene_id` (the scene
slot) or `self.pending` (the pending table). -/

/-- The two shared structures of the relay. -/
inductive Shared where
  | sceneSlot
  | pendingTable
deriving DecidableEq, Repr

/-- One source-level access to a shared structure. -/
structure GuardedAccess where
  target : Shared
  isWrite : Bool
  underLock : Bool
  /-- A read whose result decides what the relay does next. -/
  controlRead : Bool
  /-- Source line in bridge_server.py. -/
  line : Nat
deriving DecidableEq, Repr

/-- Accesses made by `_register_scene` and `_flush_pending`.  Note line 84:
the `async with` block ends at line 82, so the ready acknowledgement's read
of `self.scene_id` happens outside the lock (a plain use, not a control
decision), and `_flush_pending` (called at line 112 after the `async with`
block closed, lines 200-209) touches the table with no lock held. -/
def registerSceneAccesses : List GuardedAccess :=
  [ ⟨.sceneSlot, false, true, true, 70⟩,      -- if self.scene is not None (admission)
    ⟨.sceneSlot, true, true, false, 81⟩,      -- self.scene = websocket
    ⟨.sceneSlot, true, true, false, 82⟩,      -- self.scene_id = ...
    ⟨.sceneSlot, false, false, false, 84⟩,    -- self.scene_id read for the ready ack, lock released
    ⟨.pendingTable, true, false, false, 100⟩, -- self.pending.pop in the read loop
    ⟨.sceneSlot, true, true, false, 110⟩,     -- self.scene = None
    ⟨.sceneSlot, true, true, false, 111⟩,     -- self.scene_id = None
    ⟨.pendingTable, false, false, false, 200⟩, -- list(self.pending.items()) in _flush_pending
    ⟨.pendingTable, false, false, true, 201⟩, -- future.done() check in _flush_pending
    ⟨.pendingTable, true, false, false, 209⟩ ] -- self.pending.pop in _flush_pending

/-- Accesses made by `_register_mcp`. -/
def registerMcpAccesses : List GuardedAccess :=
  [ ⟨.sceneSlot, false, false, true, 144⟩,     -- if self.scene is None (forward decision)
    ⟨.pendingTable, true, false, false, 157⟩,  -- self.pending[request_id] = ...
    ⟨.sceneSlot, false, false, false, 160⟩,    -- self.scene.send(...)
    ⟨.pendingTable, true, false, false, 171⟩,  -- pop after failed forward
    ⟨.pendingTable, true, false, false, 186⟩,  -- pop after timeout
    ⟨.pendingTable, true, false, false, 190⟩,  -- pop after reply
    ⟨.pendingTable, false, false, false, 194⟩, -- items() scan in finally
    ⟨.pendingTable, true, false, false, 196⟩ ] -- pop in finally

/-- Every shared-state access the relay performs. -/
def allAccesses : List GuardedAccess := registerSceneAccesses ++ registerMcpAccesses

/-! ### Configuration surface (bridge_server.py:22-24, 45, 217-221) -/

/-- The process environment, as `os.getenv` sees it. -/
abbrev Env := String → Option String

/-- `os.getenv(key, default)`. -/
def getenvD (env : Env) (key default : String) : String :=
  (env key).getD default

/-- `DEFAULT_HOST` (bridge_server.py:22); also the default of the `--host`
flag (line 219), which overrides it when given. -/
def defaultHost (env : Env) (hostFlag : Option String) : String :=
  hostFlag.getD (getenvD env "AFRAME_BRIDGE_HOST" "127.0.0.1")

/-- Value of one decimal digit, `none` otherwise. -/
def digitVal (c : Char) : Option Nat :=
  if c.isDigit then some (c.toNat - 48) else none

/-- Python `int(...)` on a nonnegative decimal literal: `none` (meaning
`int` raises) on the empty string or any non-digit character. -/
def parseDec (s : String) : Option Nat :=
  match s.data with
  | [] => none
  | cs => cs.foldl
      (fun acc c =>
        match acc, digitVal c with
        | some n, some d => some (n * 10 + d)
        | _, _ => none)
      (some 0)

/-- `DEFAULT_PORT` (bridge_server.py:23): `int(...)` of the env value
(`none` when the string is not a number — `int` raises there); the
`--port` flag (line 220) overrides it. -/
def defaultPort (env : Env) (portFlag : Option Nat) : Option Nat :=
  match portFlag with
  | some p => some p
  | none => parseDec (getenvD env "AFRAME_BRIDGE_PORT" "8765")

/-- `RESPONSE_TIMEOUT` (bridge_server.py:24), kept as the raw string fed to
`float(...)` — its numeric value is irrelevant here, only which environment
variable selects it. -/
def responseTimeoutRaw (env : Env) : String :=
  getenvD env "AFRAME_BRIDGE_RESPONSE_TIMEOUT" "20"

/-- The handshake window: the literal `timeout=5` at bridge_server.py:45.
It reads no environment variable and no CLI flag — the parameters are
accepted only to show it ignores them. -/
def handshakeTimeout (_env : Env) (_argv : List String) : Nat := 5

/-- An environment holding exactly one variable. -/
def envWith (key val : String) : Env :=
  fun q => if q = key then some val else none

/-- The empty environment. -/
def envEmpty : Env := fun _ => none

/-- A system state used to instantiate the scene-lifecycle theorems: one
scene connection (id 0) that registered, read frames, and whose connection
has just closed, so its `finally` block is about to run. -/
def sceneTasksExample : Nat → Option SPhase :=
  updTask (updTask (updTask (updTask (fun _ => none) 0 (some .arriving))
    0 (some .acking)) 0 (some .reading)) 0 (some .clearing)

/-- The scene slot still holds connection 0 while its `finally` is pending. -/
def sceneSysExample : SceneSys := ⟨some 0, sceneTasksExample⟩

/-- Canonical forms of a forwarded command's state.  `S m` means "the scene
loop has delivered frame `m` to this command's future" (the provenance of a
`resolved` value); every state reachable from `cmdInit` is one of these
eight shapes.  The shapes record, in order: freshly forwarded; resolved
while the handler still sleeps; timed out with the entry still present or
already popped; timeout reply sent with the entry still present or already
popped; finished via timeout; finished via a resolved future (a scene reply
or the flush's synthetic disconnect error). -/
def CShape (rid : JVal) (S : JObj → Prop) (s : CmdState) : Prop :=
  s = ⟨true, .unresolved, .waiting, []⟩ ∨
  (∃ m, (m = flushObj rid "Scene disconnected" ∨
          (S m ∧ jget m "requestId" = some rid)) ∧
     s = ⟨false, .resolved m, .waiting, []⟩) ∨
  s = ⟨true, .cancelled, .wokeTimeout, []⟩ ∨
  s = ⟨false, .cancelled, .wokeTimeout, []⟩ ∨
  s = ⟨true, .cancelled, .sentTimeout, [timeoutObj rid]⟩ ∨
  s = ⟨false, .cancelled, .sentTimeout, [timeoutObj rid]⟩ ∨
  s = ⟨false, .cancelled, .done, [timeoutObj rid]⟩ ∨
  (∃ m, (m = flushObj rid "Scene disconnected" ∨
          (S m ∧ jget m "requestId" = some rid)) ∧
     s = ⟨false, .resolved m, .done, [m]⟩)

/-! ## Theorems -/

/-! ### Association-list lemmas for the dict embedding -/

theorem lookupKey_isSome_iff_mem {k : JVal} {t : Table} :
    (lookupKey k t).isSome ↔ k ∈ t.map (·.1) := by
  induction t with
  | nil => simp [lookupKey]
  | cons e rest ih =>
    by_cases he : e.1 = k
    · simp [lookupKey, he]
    · simp [lookupKey, he, ih, Ne.symm he]

theorem lookupKey_eraseKey_ne {k k' : JVal} (t : Table) (h : k' ≠ k) :
    lookupKey k' (eraseKey k t) = lookupKey k' t := by
  induction t with
  | nil => rfl
  | cons e rest ih =>
    by_cases he : e.1 = k
    · have h1 : ¬ e.1 = k' := fun hk => h (hk ▸ he)
      simp only [eraseKey, lookupKey, if_pos he, if_neg h1]
    · by_cases he' : e.1 = k'
      · simp only [eraseKey, if_neg he, lookupKey, if_pos he']
      · simp only [eraseKey, if_neg he, lookupKey, if_neg he', ih]

theorem eraseKey_eq_filter {t : Table} (h : keysNodup t) (k : JVal) :
    eraseKey k t = t.filter (fun e => !decide (e.1 = k)) := by
  induction t with
  | nil => rfl
  | cons e rest ih =>
    have h' : keysNodup rest ∧ e.1 ∉ rest.map (fun x => x.1) := by
      unfold keysNodup at h ⊢
      simp only [List.map_cons, List.nodup_cons] at h
      exact ⟨h.2, h.1⟩
    by_cases he : e.1 = k
    · have hrest : rest.filter (fun e => !decide (e.1 = k)) = rest := by
        apply List.filter_eq_self.mpr
        intro a ha
        have hak : ¬ a.1 = k := fun hak => h'.2 (by
          rw [← he] at hak
          exact hak ▸ List.mem_map_of_mem (fun x => x.1) ha)
        simp [hak]
      simp [eraseKey, he, hrest]
    · simp [eraseKey, he, ih h'.1]

theorem keysNodup_eraseKey {t : Table} (h : keysNodup t) (k : JVal) :
    keysNodup (eraseKey k t) := by
  rw [eraseKey_eq_filter h k]
  exact List.Nodup.sublist
    (List.Sublist.map (fun x => x.1) (List.filter_sublist t)) h

theorem entry_eq_of_keysNodup {t : Table} (h : keysNodup t)
    {e e' : JVal × PendingMessage} (hin : e ∈ t) (hin' : e' ∈ t)
    (hk : e.1 = e'.1) : e = e' := by
  induction t with
  | nil => cases hin
  | cons a rest ih =>
    have h' : keysNodup rest ∧ a.1 ∉ rest.map (fun x => x.1) := by
      unfold keysNodup at h ⊢
      simp only [List.map_cons, List.nodup_cons] at h
      exact ⟨h.2, h.1⟩
    rcases List.mem_cons.mp hin with h1 | h1
    · rcases List.mem_cons.mp hin' with h2 | h2
      · rw [h1, h2]
      · exfalso
        apply h'.2
        have hm : e'.1 ∈ rest.map (fun x => x.1) := List.mem_map.mpr ⟨e', h2, rfl⟩
        have ha : a.1 = e'.1 := by rw [← h1]; exact hk
        rw [ha]
        exact hm
    · rcases List.mem_cons.mp hin' with h2 | h2
      · exfalso
        apply h'.2
        have hm : e.1 ∈ rest.map (fun x => x.1) := List.mem_map.mpr ⟨e, h1, rfl⟩
        have ha : a.1 = e.1 := by rw [← h2]; exact hk.symm
        rw [ha]
        exact hm
      · exact ih h'.1 h1 h2

/-! ### Lemmas about `flushPending` -/

theorem flushFold_spec (message : String) :
    ∀ (l : List (JVal × PendingMessage)) (t : Table) (rs : List JObj),
      l.foldl
        (fun acc e =>
          (eraseKey e.1 acc.1,
           if e.2.future.done then acc.2 else acc.2 ++ [flushObj e.1 message]))
        (t, rs) =
      (l.foldl (fun u e => eraseKey e.1 u) t,
       rs ++ (l.filter (fun e => decide (e.2.future = .unresolved))).map
         (fun e => flushObj e.1 message)) := by
  intro l
  induction l with
  | nil => intro t rs; simp
  | cons e l ih =>
    intro t rs
    simp only [List.foldl_cons, List.filter_cons]
    rw [ih]
    cases hf : e.2.future <;> simp [FutSt.done, hf]

theorem foldl_eraseKey_self : ∀ l : Table, l.foldl (fun u e => eraseKey e.1 u) l = [] := by
  intro l
  induction l with
  | nil => rfl
  | cons e l ih =>
    simp only [List.foldl_cons, eraseKey, if_pos rfl]
    exact ih

/-! ### Claim C3 -/

/-- Claim C3: when the scene connection closes, `_flush_pending("Scene
disconnected")` resolves every entry whose waiter is still unresolved —
each exactly once, in table order, with the synthetic reply
`{requestId, status:"error", message:"Scene disconnected"}` — and leaves
the pending table empty, so no waiting control client hangs and none is
silently dropped (the resolutions list is exactly the unresolved entries;
already-done waiters are popped without a second resolution). -/
theorem flush_resolves_all_and_empties (p : Table) :
    (flushPending "Scene disconnected" p).1 = [] ∧
    (flushPending "Scene disconnected" p).2 =
      (p.filter (fun e => decide (e.2.future = .unresolved))).map
        (fun e => flushObj e.1 "Scene disconnected") := by
  unfold flushPending
  rw [flushFold_spec]
  exact ⟨foldl_eraseKey_self p, by simp⟩

/-! ### Claim C2 -/

/-- Claim C2: the scene slot holds at most one connection at any state (it
is one optional reference), and a second scene handshake arriving while the
slot is occupied is answered with the rejection payload and a close of the
new connection with code 4003, while the incumbent's slot entry, scene id
and pending table are returned unchanged; the incumbent stays usable — a
parsed command with a truthy `requestId` submitted afterwards is still
forwarded to the scene. -/
theorem second_scene_rejected_incumbent_unchanged
    (st : BridgeState) (ws s ws2 : Nat) (hs m : JObj) (rid : JVal)
    (h : st.scene = some s) (hm : jget m "requestId" = some rid)
    (ht : rid.truthy = true) :
    registerSceneAdmission st ws hs =
      (st, [.send ws sceneRejectObj, .close ws 4003 "Scene already connected"]) ∧
    mcpHandleFrame st ws2 (some m) true =
      ({ st with pending := insertOv rid ⟨.unresolved, ws2⟩ st.pending },
       .forwarded m) := by
  constructor
  · simp [registerSceneAdmission, h]
  · simp [mcpHandleFrame, hm, ht, h]

/-- Witness for C2 at a concrete occupied state. -/
theorem second_scene_rejected_witness :
    (BridgeState.scene ⟨some 0, some (.jstr "default"), []⟩ = some 0) ∧
    (jget [("requestId", .jstr "r1")] "requestId" = some (.jstr "r1")) ∧
    ((JVal.jstr "r1").truthy = true) ∧
    (registerSceneAdmission ⟨some 0, some (.jstr "default"), []⟩ 2 [] =
      (⟨some 0, some (.jstr "default"), []⟩,
       [.send 2 sceneRejectObj, .close 2 4003 "Scene already connected"]) ∧
     mcpHandleFrame ⟨some 0, some (.jstr "default"), []⟩ 3
        (some [("requestId", .jstr "r1")]) true =
      (⟨some 0, some (.jstr "default"),
        insertOv (.jstr "r1") ⟨.unresolved, 3⟩ []⟩, .forwarded [("requestId", .jstr "r1")])) :=
  ⟨rfl, rfl, rfl,
   second_scene_rejected_incumbent_unchanged
     ⟨some 0, some (.jstr "default"), []⟩ 2 0 3 [] [("requestId", .jstr "r1")]
     (.jstr "r1") rfl rfl rfl⟩

/-! ### Claim C5 (corrected: the message text differs) -/

/-- Claim C5 counterexample: with no scene registered, the reply the relay
actually sends carries the message `"No A-Frame scene is connected"`, not
the `"No scene is connected"` the claim states; so the claimed reply
object is never the one sent. -/
theorem no_scene_message_text_counterexample :
    mcpHandleFrame ⟨none, none, []⟩ 1 (some [("requestId", .jstr "r2")]) true =
      (⟨none, none, []⟩, .replied (noSceneObj (.jstr "r2"))) ∧
    jget (noSceneObj (.jstr "r2")) "message" =
      some (.jstr "No A-Frame scene is connected") ∧
    (JVal.jstr "No A-Frame scene is connected") ≠ .jstr "No scene is connected" := by
  refine ⟨rfl, rfl, ?_⟩
  decide

/-- Claim C5 (amended): whenever a control client submits a parsed command
bearing a truthy `requestId` while no scene is registered, the relay
replies immediately on that connection with `{requestId, status:"error",
message:"No A-Frame scene is connected"}` and continues serving the
connection (the outcome is `replied`, i.e. the loop proceeds); the state —
in particular the pending table — is unchanged, so the command is never
queued, and the outcome is not `forwarded`, so it is never sent to any
future scene. -/
theorem no_scene_immediate_error (st : BridgeState) (ws : Nat) (m : JObj)
    (rid : JVal) (b : Bool) (hscene : st.scene = none)
    (hm : jget m "requestId" = some rid) (ht : rid.truthy = true) :
    mcpHandleFrame st ws (some m) b = (st, .replied (noSceneObj rid)) := by
  simp [mcpHandleFrame, hm, ht, hscene]

/-- Witness for the amended C5 at a concrete input. -/
theorem no_scene_immediate_error_witness :
    (BridgeState.scene ⟨none, none, []⟩ = none) ∧
    (jget [("requestId", .jstr "r2"), ("type", .jstr "ping")] "requestId" =
      some (.jstr "r2")) ∧
    ((JVal.jstr "r2").truthy = true) ∧
    mcpHandleFrame ⟨none, none, []⟩ 1
        (some [("requestId", .jstr "r2"), ("type", .jstr "ping")]) true =
      (⟨none, none, []⟩, .replied (noSceneObj (.jstr "r2"))) :=
  ⟨rfl, rfl, rfl,
   no_scene_immediate_error ⟨none, none, []⟩ 1
     [("requestId", .jstr "r2"), ("type", .jstr "ping")] (.jstr "r2") true
     rfl rfl rfl⟩

/-! ### Claim C6 -/

/-- Claim C6: a scene frame that fails to parse (`raw = none`) or parses
without a `requestId` field leaves the relay state untouched and yields the
`looped` outcome — the read loop continues, the scene connection is not
closed, and nothing escapes as a fault (in particular the outcome is not
`crashed`). -/
theorem malformed_scene_frame_continues (st : BridgeState) (raw : Option JObj)
    (h : raw = none ∨ ∃ m, raw = some m ∧ jget m "requestId" = none) :
    sceneHandleFrame st raw = (st, .looped) := by
  rcases h with rfl | ⟨m, rfl, hm⟩
  · rfl
  · simp [sceneHandleFrame, hm]

/-- Witness for C6: an unparsable frame and a parsed frame without
`requestId`, both on a state with a live pending entry. -/
theorem malformed_scene_frame_witness :
    ((none : Option JObj) = none ∨
      ∃ m, (none : Option JObj) = some m ∧ jget m "requestId" = none) ∧
    ((some [("status", JVal.jstr "ok")] : Option JObj) = none ∨
      ∃ m, (some [("status", JVal.jstr "ok")] : Option JObj) = some m ∧
        jget m "requestId" = none) ∧
    sceneHandleFrame ⟨some 0, some (.jstr "default"), [(.jstr "r1", ⟨.unresolved, 1⟩)]⟩
        none =
      (⟨some 0, some (.jstr "default"), [(.jstr "r1", ⟨.unresolved, 1⟩)]⟩, .looped) ∧
    sceneHandleFrame ⟨some 0, some (.jstr "default"), [(.jstr "r1", ⟨.unresolved, 1⟩)]⟩
        (some [("status", .jstr "ok")]) =
      (⟨some 0, some (.jstr "default"), [(.jstr "r1", ⟨.unresolved, 1⟩)]⟩, .looped) :=
  ⟨Or.inl rfl,
   Or.inr ⟨[("status", .jstr "ok")], rfl, rfl⟩,
   malformed_scene_frame_continues _ none (Or.inl rfl),
   malformed_scene_frame_continues _ (some [("status", .jstr "ok")])
     (Or.inr ⟨[("status", .jstr "ok")], rfl, rfl⟩)⟩

/-! ### Claim C10 -/

/-- Claim C10: a command whose `requestId` is present but falsy (e.g. the
empty string) is treated exactly like a missing `requestId`: the control
loop replies with the local `"Commands must include requestId"` error,
leaves the table unchanged (no pending entry), and does not forward —
producing the very same result as a frame with no `requestId` field; and a
scene frame with a falsy `requestId` is discarded as missing (`looped`,
state unchanged), again the same result as with the field absent. -/
theorem falsy_requestId_treated_as_missing (st : BridgeState) (ws : Nat)
    (b : Bool) (m mm : JObj) (v : JVal)
    (hm : jget m "requestId" = some v) (hv : v.truthy = false)
    (hmm : jget mm "requestId" = none) :
    mcpHandleFrame st ws (some m) b = (st, .replied mustIncludeObj) ∧
    mcpHandleFrame st ws (some m) b = mcpHandleFrame st ws (some mm) b ∧
    sceneHandleFrame st (some m) = (st, .looped) ∧
    sceneHandleFrame st (some m) = sceneHandleFrame st (some mm) := by
  have h1 : mcpHandleFrame st ws (some m) b = (st, .replied mustIncludeObj) := by
    simp [mcpHandleFrame, hm, hv]
  have h2 : sceneHandleFrame st (some m) = (st, .looped) := by
    simp [sceneHandleFrame, hm, hv]
  refine ⟨h1, ?_, h2, ?_⟩
  · rw [h1]; simp [mcpHandleFrame, hmm]
  · rw [h2]; simp [sceneHandleFrame, hmm]

/-- Witness for C10 with `requestId = ""` against `requestId` absent. -/
theorem falsy_requestId_witness :
    (jget [("requestId", .jstr "")] "requestId" = some (.jstr "")) ∧
    ((JVal.jstr "").truthy = false) ∧
    (jget [("type", .jstr "ping")] "requestId" = none) ∧
    (mcpHandleFrame ⟨some 0, none, []⟩ 1 (some [("requestId", .jstr "")]) true =
       (⟨some 0, none, []⟩, .replied mustIncludeObj) ∧
     mcpHandleFrame ⟨some 0, none, []⟩ 1 (some [("requestId", .jstr "")]) true =
       mcpHandleFrame ⟨some 0, none, []⟩ 1 (some [("type", .jstr "ping")]) true ∧
     sceneHandleFrame ⟨some 0, none, []⟩ (some [("requestId", .jstr "")]) =
       (⟨some 0, none, []⟩, .looped) ∧
     sceneHandleFrame ⟨some 0, none, []⟩ (some [("requestId", .jstr "")]) =
       sceneHandleFrame ⟨some 0, none, []⟩ (some [("type", .jstr "ping")])) :=
  ⟨rfl, rfl, rfl,
   falsy_requestId_treated_as_missing ⟨some 0, none, []⟩ 1 true
     [("requestId", .jstr "")] [("type", .jstr "ping")] (.jstr "")
     rfl rfl rfl⟩

/-! ### Claim C7 (corrected: the guard protects only the scene slot) -/

/-- Claim C7 counterexample: the control handler's "is a scene registered"
check (bridge_server.py:144) is a control-decision read of the scene slot
performed without holding `scene_lock`, and the pending-table writes of the
control handler (e.g. line 157) are also made without the guard; so the
claim that every such access holds the guard is false. -/
theorem scene_check_unlocked_counterexample :
    ((⟨.sceneSlot, false, false, true, 144⟩ : GuardedAccess) ∈ allAccesses ∧
     (⟨.pendingTable, true, false, false, 157⟩ : GuardedAccess) ∈ allAccesses) ∧
    ¬ (∀ a ∈ allAccesses,
        (a.isWrite = true ∨ a.controlRead = true) → a.underLock = true) := by
  decide

/-- Claim C7 (amended): the guard discipline the code actually has —
`scene_lock` is held for every scene-slot *mutation* (lines 81-82, 110-111)
and for the admission check at line 70, and every scene-slot access made
without the guard is a read: the line-84 `scene_id` read for the ready
acknowledgement (after the `async with` block closed) and the control
handler's reads (the line-144 forward decision and the line-160 send).
The pending table is never accessed under the guard.  The unlocked
accesses rely on the single-threaded event loop (no await point between
the line-144 check and the line-160 send's start) rather than on the
lock. -/
theorem lock_discipline_actual :
    (∀ a ∈ allAccesses, a.target = .sceneSlot → a.isWrite = true →
      a.underLock = true) ∧
    ((⟨.sceneSlot, false, true, true, 70⟩ : GuardedAccess) ∈ registerSceneAccesses) ∧
    (∀ a ∈ allAccesses, a.target = .sceneSlot → a.underLock = false →
      a.isWrite = false) ∧
    ((⟨.sceneSlot, false, false, false, 84⟩ : GuardedAccess) ∈ registerSceneAccesses) ∧
    (∀ a ∈ allAccesses, a.target = .pendingTable → a.underLock = false) ∧
    (∀ a ∈ registerMcpAccesses, a.target = .sceneSlot → a.underLock = false) := by
  decide

/-! ### Claim C9 (corrected: the handshake timeout is fixed) -/

/-- Claim C9 counterexample: the handshake window is the literal `5` at
bridge_server.py:45 — no environment setting and no CLI argument changes
it, so it is not an operator-overridable knob and the four-knob claim
fails. -/
theorem handshake_timeout_fixed_counterexample :
    handshakeTimeout (envWith "AFRAME_BRIDGE_HANDSHAKE_TIMEOUT" "30")
        ["--handshake-timeout", "30"] = handshakeTimeout envEmpty [] ∧
    ¬ ∃ (e : Env) (argv : List String) (e' : Env) (argv' : List String),
        handshakeTimeout e argv ≠ handshakeTimeout e' argv' := by
  refine ⟨rfl, ?_⟩
  rintro ⟨e, a, e', a', h⟩
  exact h rfl

/-- Claim C9 (amended): bind host, bind port and the per-command response
timeout each have a stated default (`127.0.0.1`, `8765`, `20`) and are each
independently overridable (host and port via environment variable or CLI
flag, the response timeout via environment variable; overriding the host
variable changes neither the port nor the timeout), but the handshake
timeout is fixed at 5 seconds for every environment and argument vector. -/
theorem config_knobs_actual :
    defaultHost envEmpty none = "127.0.0.1" ∧
    defaultHost (envWith "AFRAME_BRIDGE_HOST" "0.0.0.0") none = "0.0.0.0" ∧
    defaultHost envEmpty (some "10.0.0.1") = "10.0.0.1" ∧
    defaultPort envEmpty none = some 8765 ∧
    defaultPort (envWith "AFRAME_BRIDGE_PORT" "9000") none = some 9000 ∧
    defaultPort envEmpty (some 9001) = some 9001 ∧
    responseTimeoutRaw envEmpty = "20" ∧
    responseTimeoutRaw (envWith "AFRAME_BRIDGE_RESPONSE_TIMEOUT" "30") = "30" ∧
    defaultPort (envWith "AFRAME_BRIDGE_HOST" "0.0.0.0") none = some 8765 ∧
    responseTimeoutRaw (envWith "AFRAME_BRIDGE_HOST" "0.0.0.0") = "20" ∧
    (∀ (e : Env) (argv : List String), handshakeTimeout e argv = 5) := by
  exact ⟨rfl, rfl, rfl, rfl, rfl, rfl, rfl, rfl, rfl, rfl, fun _ _ => rfl⟩

/-! ### Claim C8 -/

theorem cancelFold_spec :
    ∀ (ks : List JVal) (t : Table) (rs : List JVal), keysNodup t → ks.Nodup →
      (∀ k ∈ ks, k ∈ t.map (fun x => x.1)) →
      (ks.foldl
        (fun acc k =>
          match lookupKey k acc.1 with
          | some _ => (eraseKey k acc.1, acc.2 ++ [k])
          | none => acc)
        (t, rs)) =
      (t.filter (fun e => !decide (e.1 ∈ ks)), rs ++ ks) := by
  intro ks
  induction ks with
  | nil =>
    intro t rs _ _ _
    simp
  | cons k ks ih =>
    intro t rs ht hnd hmem
    have hk : k ∈ t.map (fun x => x.1) := hmem k (List.mem_cons_self k ks)
    obtain ⟨pm, hpm⟩ : ∃ pm, lookupKey k t = some pm :=
      Option.isSome_iff_exists.mp (lookupKey_isSome_iff_mem.mpr hk)
    have hnd' : ks.Nodup := (List.nodup_cons.mp hnd).2
    have hknotin : k ∉ ks := (List.nodup_cons.mp hnd).1
    simp only [List.foldl_cons, hpm]
    rw [ih (eraseKey k t) (rs ++ [k]) (keysNodup_eraseKey ht k) hnd'
      (by
        intro k' hk'
        have hne : k' ≠ k := fun hEq => hknotin (hEq ▸ hk')
        rw [← lookupKey_isSome_iff_mem, lookupKey_eraseKey_ne t hne,
          lookupKey_isSome_iff_mem]
        exact hmem k' (List.mem_cons_of_mem k hk'))]
    simp only [Prod.mk.injEq]
    refine ⟨?_, by simp⟩
    rw [eraseKey_eq_filter ht k, List.filter_filter]
    apply List.filter_congr
    intro a _
    simp [List.mem_cons, not_or, Bool.and_comm]

/-- Claim C8: when a control connection `ws` closes, the `finally` cleanup
removes exactly the pending entries owned by `ws` — their keys are the
cancellation list, each exactly once, in table order, and cancelling
resolves nothing (the cleanup produces no reply objects at all) — while
every entry owned by any other connection remains in the table unmodified
and in order. -/
theorem control_close_cancels_only_owned (ws : Nat) (p : Table)
    (h : keysNodup p) :
    (cancelOwned ws p).1 = p.filter (fun e => !decide (e.2.client = ws)) ∧
    (cancelOwned ws p).2 =
      (p.filter (fun e => decide (e.2.client = ws))).map (fun x => x.1) := by
  unfold cancelOwned
  dsimp only
  have hsub : List.Sublist
      ((p.filter (fun e => decide (e.2.client = ws))).map fun x => x.1)
      (p.map (fun x => x.1)) :=
    List.Sublist.map (fun x => x.1) (List.filter_sublist p)
  have hks_nd : ((p.filter (fun e => decide (e.2.client = ws))).map fun x => x.1).Nodup :=
    List.Nodup.sublist hsub h
  have hmem : ∀ k ∈ (p.filter (fun e => decide (e.2.client = ws))).map fun x => x.1,
      k ∈ p.map (fun x => x.1) := fun k hk => hsub.mem hk
  rw [cancelFold_spec _ p [] h hks_nd hmem]
  refine ⟨?_, by simp⟩
  apply List.filter_congr
  intro e he
  have hiff : (e.1 ∈ (p.filter (fun x => decide (x.2.client = ws))).map fun x => x.1) ↔
      e.2.client = ws := by
    constructor
    · intro hmm
      rcases List.mem_map.mp hmm with ⟨e', he', hke⟩
      rcases List.mem_filter.mp he' with ⟨he'p, hcl⟩
      have : e = e' := entry_eq_of_keysNodup h he he'p hke.symm
      rw [this]
      exact of_decide_eq_true hcl
    · intro hcl
      exact List.mem_map.mpr ⟨e, List.mem_filter.mpr ⟨he, decide_eq_true hcl⟩, rfl⟩
  rw [decide_eq_decide.mpr hiff]

/-! ### Claim C1 -/

theorem cshape_mono {rid : JVal} {S S' : JObj → Prop} (hss : ∀ m, S m → S' m)
    {s : CmdState} (h : CShape rid S s) : CShape rid S' s := by
  have lift : ∀ m, (m = flushObj rid "Scene disconnected" ∨
      (S m ∧ jget m "requestId" = some rid)) →
      (m = flushObj rid "Scene disconnected" ∨
      (S' m ∧ jget m "requestId" = some rid)) :=
    fun m hm => hm.imp id (fun hp => ⟨hss m hp.1, hp.2⟩)
  rcases h with h | ⟨m, hm, h⟩ | h | h | h | h | h | ⟨m, hm, h⟩
  · exact .inl h
  · exact .inr (.inl ⟨m, lift m hm, h⟩)
  · exact .inr (.inr (.inl h))
  · exact .inr (.inr (.inr (.inl h)))
  · exact .inr (.inr (.inr (.inr (.inl h))))
  · exact .inr (.inr (.inr (.inr (.inr (.inl h)))))
  · exact .inr (.inr (.inr (.inr (.inr (.inr (.inl h))))))
  · exact .inr (.inr (.inr (.inr (.inr (.inr (.inr ⟨m, lift m hm, h⟩))))))

theorem cshape_step (rid : JVal) (S : JObj → Prop) (s : CmdState) (e : Ev)
    (h : CShape rid S s) :
    CShape rid (fun m => S m ∨ e = Ev.sceneFrame m) (cmdStep rid s e) := by
  have lift : ∀ m, (m = flushObj rid "Scene disconnected" ∨
      (S m ∧ jget m "requestId" = some rid)) →
      (m = flushObj rid "Scene disconnected" ∨
      ((S m ∨ e = Ev.sceneFrame m) ∧ jget m "requestId" = some rid)) :=
    fun m hm => hm.imp id (fun hp => ⟨.inl hp.1, hp.2⟩)
  rcases h with rfl | ⟨m, hm, rfl⟩ | rfl | rfl | rfl | rfl | rfl | ⟨m, hm, rfl⟩
  · -- shape 1: freshly forwarded
    cases e with
    | sceneFrame m' =>
      cases hj : jget m' "requestId" with
      | none => exact .inl (by simp [cmdStep, hj])
      | some v =>
        by_cases hc : (v.truthy = true ∧ v = rid)
        · refine .inr (.inl ⟨m', .inr ⟨.inr rfl, ?_⟩, ?_⟩)
          · rw [hj, hc.2]
          · simp [cmdStep, hj, hc]
            exact hc.2 ▸ hc.1
        · exact .inl (by simp [cmdStep, hj, hc])
    | flush =>
      exact .inr (.inl ⟨flushObj rid "Scene disconnected", .inl rfl, rfl⟩)
    | timerFire => exact .inr (.inr (.inl rfl))
    | handlerStep => exact .inl rfl
  · -- shape 2: resolved while the handler sleeps
    cases e with
    | sceneFrame m' =>
      refine .inr (.inl ⟨m, lift m hm, ?_⟩)
      cases hj : jget m' "requestId" with
      | none => simp [cmdStep, hj]
      | some v => simp [cmdStep, hj]
    | flush => exact .inr (.inl ⟨m, lift m hm, rfl⟩)
    | timerFire => exact .inr (.inl ⟨m, lift m hm, rfl⟩)
    | handlerStep =>
      refine .inr (.inr (.inr (.inr (.inr (.inr (.inr
        ⟨m, lift m hm, ?_⟩))))))
      simp [cmdStep]
  · -- shape 3: timed out, entry still present
    cases e with
    | sceneFrame m' =>
      cases hj : jget m' "requestId" with
      | none => exact .inr (.inr (.inl (by simp [cmdStep, hj])))
      | some v =>
        by_cases hc : (v.truthy = true ∧ v = rid)
        · exact .inr (.inr (.inr (.inl
            (by simp [cmdStep, hj, hc]; exact hc.2 ▸ hc.1))))
        · exact .inr (.inr (.inl (by simp [cmdStep, hj, hc])))
    | flush => exact .inr (.inr (.inr (.inl rfl)))
    | timerFire => exact .inr (.inr (.inl rfl))
    | handlerStep =>
      exact .inr (.inr (.inr (.inr (.inl (by simp [cmdStep])))))
  · -- shape 4: timed out, entry already popped
    cases e with
    | sceneFrame m' =>
      refine .inr (.inr (.inr (.inl ?_)))
      cases hj : jget m' "requestId" with
      | none => simp [cmdStep, hj]
      | some v => simp [cmdStep, hj]
    | flush => exact .inr (.inr (.inr (.inl rfl)))
    | timerFire => exact .inr (.inr (.inr (.inl rfl)))
    | handlerStep =>
      exact .inr (.inr (.inr (.inr (.inr (.inl (by simp [cmdStep]))))))
  · -- shape 5: timeout reply sent, entry still present
    cases e with
    | sceneFrame m' =>
      cases hj : jget m' "requestId" with
      | none =>
        exact .inr (.inr (.inr (.inr (.inl (by simp [cmdStep, hj])))))
      | some v =>
        by_cases hc : (v.truthy = true ∧ v = rid)
        · exact .inr (.inr (.inr (.inr (.inr (.inl
            (by simp [cmdStep, hj, hc]; exact hc.2 ▸ hc.1))))))
        · exact .inr (.inr (.inr (.inr (.inl (by simp [cmdStep, hj, hc])))))
    | flush =>
      exact .inr (.inr (.inr (.inr (.inr (.inl rfl)))))
    | timerFire =>
      exact .inr (.inr (.inr (.inr (.inl rfl))))
    | handlerStep =>
      exact .inr (.inr (.inr (.inr (.inr (.inr (.inl
        (by simp [cmdStep])))))))
  · -- shape 6: timeout reply sent, entry already popped
    cases e with
    | sceneFrame m' =>
      refine .inr (.inr (.inr (.inr (.inr (.inl ?_)))))
      cases hj : jget m' "requestId" with
      | none => simp [cmdStep, hj]
      | some v => simp [cmdStep, hj]
    | flush =>
      exact .inr (.inr (.inr (.inr (.inr (.inl rfl)))))
    | timerFire =>
      exact .inr (.inr (.inr (.inr (.inr (.inl rfl)))))
    | handlerStep =>
      exact .inr (.inr (.inr (.inr (.inr (.inr (.inl
        (by simp [cmdStep])))))))
  · -- shape 7: finished via timeout
    cases e with
    | sceneFrame m' =>
      refine .inr (.inr (.inr (.inr (.inr (.inr (.inl ?_))))))
      cases hj : jget m' "requestId" with
      | none => simp [cmdStep, hj]
      | some v => simp [cmdStep, hj]
    | flush =>
      exact .inr (.inr (.inr (.inr (.inr (.inr (.inl rfl))))))
    | timerFire =>
      exact .inr (.inr (.inr (.inr (.inr (.inr (.inl rfl))))))
    | handlerStep =>
      exact .inr (.inr (.inr (.inr (.inr (.inr (.inl rfl))))))
  · -- shape 8: finished via a resolved future
    cases e with
    | sceneFrame m' =>
      refine .inr (.inr (.inr (.inr (.inr (.inr (.inr
        ⟨m, lift m hm, ?_⟩))))))
      cases hj : jget m' "requestId" with
      | none => simp [cmdStep, hj]
      | some v => simp [cmdStep, hj]
    | flush =>
      exact .inr (.inr (.inr (.inr (.inr (.inr (.inr
        ⟨m, lift m hm, rfl⟩))))))
    | timerFire =>
      exact .inr (.inr (.inr (.inr (.inr (.inr (.inr
        ⟨m, lift m hm, rfl⟩))))))
    | handlerStep =>
      exact .inr (.inr (.inr (.inr (.inr (.inr (.inr
        ⟨m, lift m hm, rfl⟩))))))

theorem cmdRun_shape (rid : JVal) :
    ∀ (evs : List Ev) (s : CmdState) (S : JObj → Prop), CShape rid S s →
      CShape rid (fun m => S m ∨ Ev.sceneFrame m ∈ evs) (cmdRun rid s evs) := by
  intro evs
  induction evs with
  | nil =>
    intro s S h
    exact cshape_mono (fun m hm => .inl hm) h
  | cons e evs ih =>
    intro s S h
    have h1 := cshape_step rid S s e h
    have h2 := ih (cmdStep rid s e) _ h1
    refine cshape_mono ?_ h2
    intro m hm
    rcases hm with (hm | hm) | hm
    · exact .inl hm
    · exact .inr (hm ▸ List.mem_cons_self e evs)
    · exact .inr (List.mem_cons_of_mem e hm)

theorem cshape_replies_le_one {rid : JVal} {S : JObj → Prop} {s : CmdState}
    (h : CShape rid S s) : s.replies.length ≤ 1 := by
  rcases h with rfl | ⟨m, _, rfl⟩ | rfl | rfl | rfl | rfl | rfl | ⟨m, _, rfl⟩ <;> simp

theorem cshape_progress {rid : JVal} {S : JObj → Prop} {s : CmdState}
    (h : CShape rid S s) : (cmdRun rid s fairSuffix).phase = .done := by
  rcases h with rfl | ⟨m, _, rfl⟩ | rfl | rfl | rfl | rfl | rfl | ⟨m, _, rfl⟩ <;>
    simp [cmdRun, fairSuffix, cmdStep]

/-- Claim C1: for every command a control client successfully submits
(parsed, with a truthy `requestId` `rid`) and that the relay forwards to
the scene — i.e. the `cmdStep` machine started from `cmdInit` — the relay
delivers exactly one reply to that client for that command under every
interleaving of scene frames, flushes, the timeout timer and handler
resumptions: at any point the handler has sent at most one reply, and once
the (always eventually occurring) bounded timeout and handler scheduling
have run, the handler is finished having sent exactly one reply — either a
scene frame bearing `rid` forwarded verbatim, or the timeout error, or the
synthetic `"Scene disconnected"` error — never zero replies and never
two. -/
theorem exactly_one_reply_per_forwarded_command (rid : JVal) (evs : List Ev)
    (hrid : rid.truthy = true) :
    (cmdRun rid cmdInit evs).replies.length ≤ 1 ∧
    (cmdRun rid cmdInit (evs ++ fairSuffix)).phase = .done ∧
    ((cmdRun rid cmdInit (evs ++ fairSuffix)).replies = [timeoutObj rid] ∨
     (cmdRun rid cmdInit (evs ++ fairSuffix)).replies =
       [flushObj rid "Scene disconnected"] ∨
     ∃ m, Ev.sceneFrame m ∈ evs ∧ jget m "requestId" = some rid ∧
       (cmdRun rid cmdInit (evs ++ fairSuffix)).replies = [m]) := by
  have h0 : CShape rid (fun _ => False) cmdInit := Or.inl rfl
  have h1 := cmdRun_shape rid evs cmdInit (fun _ => False) h0
  have h2 := cmdRun_shape rid (evs ++ fairSuffix) cmdInit (fun _ => False) h0
  have happ : cmdRun rid cmdInit (evs ++ fairSuffix) =
      cmdRun rid (cmdRun rid cmdInit evs) fairSuffix := by
    simp [cmdRun, List.foldl_append]
  refine ⟨cshape_replies_le_one h1, ?_, ?_⟩
  · rw [happ]
    exact cshape_progress h1
  · have hdone : (cmdRun rid cmdInit (evs ++ fairSuffix)).phase = .done := by
      rw [happ]; exact cshape_progress h1
    have hmem : ∀ m, (False ∨ Ev.sceneFrame m ∈ evs ++ fairSuffix) →
        Ev.sceneFrame m ∈ evs := by
      intro m hm
      rcases hm with hm | hm
      · exact absurd hm not_false
      · rcases List.mem_append.mp hm with hm | hm
        · exact hm
        · exact absurd hm (by simp [fairSuffix])
    rcases h2 with hsh | ⟨m, hmm, hsh⟩ | hsh | hsh | hsh | hsh | hsh | ⟨m, hmm, hsh⟩
    · rw [hsh] at hdone; cases hdone
    · rw [hsh] at hdone; cases hdone
    · rw [hsh] at hdone; cases hdone
    · rw [hsh] at hdone; cases hdone
    · rw [hsh] at hdone; cases hdone
    · rw [hsh] at hdone; cases hdone
    · rw [hsh]; exact Or.inl rfl
    · rcases hmm with hflush | ⟨hS, hjm⟩
      · rw [hsh, hflush]; exact Or.inr (Or.inl rfl)
      · exact Or.inr (Or.inr ⟨m, hmem m hS, hjm, by rw [hsh]⟩)

/-- Witness for C1 on a concrete schedule: the scene replies to `"r1"` and
the handler forwards that reply verbatim; the fairness suffix then changes
nothing. -/
theorem exactly_one_reply_witness :
    (JVal.jstr "r1").truthy = true ∧
    ((cmdRun (.jstr "r1") cmdInit
        [.sceneFrame [("requestId", .jstr "r1"), ("status", .jstr "ok")],
         .handlerStep]).replies.length ≤ 1 ∧
     (cmdRun (.jstr "r1") cmdInit
        ([.sceneFrame [("requestId", .jstr "r1"), ("status", .jstr "ok")],
          .handlerStep] ++ fairSuffix)).phase = .done ∧
     ((cmdRun (.jstr "r1") cmdInit
        ([.sceneFrame [("requestId", .jstr "r1"), ("status", .jstr "ok")],
          .handlerStep] ++ fairSuffix)).replies = [timeoutObj (.jstr "r1")] ∨
      (cmdRun (.jstr "r1") cmdInit
        ([.sceneFrame [("requestId", .jstr "r1"), ("status", .jstr "ok")],
          .handlerStep] ++ fairSuffix)).replies =
        [flushObj (.jstr "r1") "Scene disconnected"] ∨
      ∃ m, Ev.sceneFrame m ∈
          [Ev.sceneFrame [("requestId", JVal.jstr "r1"), ("status", .jstr "ok")],
           Ev.handlerStep] ∧
        jget m "requestId" = some (.jstr "r1") ∧
        (cmdRun (.jstr "r1") cmdInit
          ([.sceneFrame [("requestId", .jstr "r1"), ("status", .jstr "ok")],
            .handlerStep] ++ fairSuffix)).replies = [m])) :=
  ⟨rfl, exactly_one_reply_per_forwarded_command (.jstr "r1")
    [.sceneFrame [("requestId", .jstr "r1"), ("status", .jstr "ok")],
     .handlerStep] rfl⟩

/-- Witness for C8 at a concrete table holding entries of two owners. -/
theorem control_close_cancels_witness :
    keysNodup [((JVal.jstr "a"), (⟨.unresolved, 1⟩ : PendingMessage)),
      (.jstr "b", ⟨.unresolved, 2⟩), (.jstr "c", ⟨.cancelled, 1⟩)] ∧
    (cancelOwned 1 [(.jstr "a", ⟨.unresolved, 1⟩), (.jstr "b", ⟨.unresolved, 2⟩),
        (.jstr "c", ⟨.cancelled, 1⟩)]).1 =
      [(.jstr "b", ⟨.unresolved, 2⟩)] ∧
    (cancelOwned 1 [(.jstr "a", ⟨.unresolved, 1⟩), (.jstr "b", ⟨.unresolved, 2⟩),
        (.jstr "c", ⟨.cancelled, 1⟩)]).2 = [.jstr "a", .jstr "c"] := by
  have h := control_close_cancels_only_owned 1
    [(.jstr "a", ⟨.unresolved, 1⟩), (.jstr "b", ⟨.unresolved, 2⟩),
     (.jstr "c", ⟨.cancelled, 1⟩)] (by decide)
  exact ⟨by decide, by rw [h.1]; rfl, by rw [h.2]; rfl⟩

/-! ### Claim C4 -/

theorem updTask_self (f : Nat → Option SPhase) (c : Nat) (v : Option SPhase) :
    updTask f c v c = v := by
  simp [updTask]

theorem updTask_ne (f : Nat → Option SPhase) {c d : Nat} (v : Option SPhase)
    (h : d ≠ c) : updTask f c v d = f d := by
  simp [updTask, h]

theorem sstep_active_inv {s s' : SceneSys} (hstep : SStep s s')
    (h : ∀ c ph, s.tasks c = some ph → ph.active = true → s.slot = some c) :
    ∀ c ph, s'.tasks c = some ph → ph.active = true → s'.slot = some c := by
  cases hstep with
  | connect c hc =>
    intro d ph hd ha
    show s.slot = some d
    have hd2 : updTask s.tasks c (some .arriving) d = some ph := hd
    by_cases hdc : d = c
    · subst hdc
      rw [updTask_self] at hd2
      injection hd2 with hph
      rw [← hph] at ha
      simp [SPhase.active] at ha
    · rw [updTask_ne _ _ hdc] at hd2
      exact h d ph hd2 ha
  | install c hc hslot =>
    intro d ph hd ha
    show some c = some d
    have hd2 : updTask s.tasks c (some .acking) d = some ph := hd
    by_cases hdc : d = c
    · rw [hdc]
    · rw [updTask_ne _ _ hdc] at hd2
      exact absurd (hslot ▸ h d ph hd2 ha) (by simp)
  | reject c d0 hc hslot =>
    intro d ph hd ha
    show s.slot = some d
    have hd2 : updTask s.tasks c (some .rejected) d = some ph := hd
    by_cases hdc : d = c
    · subst hdc
      rw [updTask_self] at hd2
      injection hd2 with hph
      rw [← hph] at ha
      simp [SPhase.active] at ha
    · rw [updTask_ne _ _ hdc] at hd2
      exact h d ph hd2 ha
  | ackOk c hc =>
    intro d ph hd ha
    show s.slot = some d
    by_cases hdc : d = c
    · subst hdc
      exact h d .acking hc rfl
    · have hd2 : updTask s.tasks c (some .reading) d = some ph := hd
      rw [updTask_ne _ _ hdc] at hd2
      exact h d ph hd2 ha
  | ackFail c hc =>
    intro d ph hd ha
    show s.slot = some d
    have hd2 : updTask s.tasks c (some .deadNoClear) d = some ph := hd
    by_cases hdc : d = c
    · subst hdc
      rw [updTask_self] at hd2
      injection hd2 with hph
      rw [← hph] at ha
      simp [SPhase.active] at ha
    · rw [updTask_ne _ _ hdc] at hd2
      exact h d ph hd2 ha
  | disconnect c hc =>
    intro d ph hd ha
    show s.slot = some d
    by_cases hdc : d = c
    · subst hdc
      exact h d .reading hc rfl
    · have hd2 : updTask s.tasks c (some .clearing) d = some ph := hd
      rw [updTask_ne _ _ hdc] at hd2
      exact h d ph hd2 ha
  | clearRun c hc =>
    intro d ph hd ha
    show none = some d
    have hd2 : updTask s.tasks c (some .cleared) d = some ph := hd
    by_cases hdc : d = c
    · subst hdc
      rw [updTask_self] at hd2
      injection hd2 with hph
      rw [← hph] at ha
      simp [SPhase.active] at ha
    · rw [updTask_ne _ _ hdc] at hd2
      have h1 := h d ph hd2 ha
      have h2 := h c .clearing hc rfl
      rw [h1] at h2
      exact absurd (Option.some.inj h2) hdc

theorem reach_active_inv {s : SceneSys} (h : Reach s) :
    ∀ c ph, s.tasks c = some ph → ph.active = true → s.slot = some c := by
  induction h with
  | init =>
    intro c ph hc _
    cases hc
  | step _ hstep ih =>
    exact sstep_active_inv hstep ih

/-- Claim C4: in every reachable state of the scene-task lifecycle, a scene
task that is about to run its slot-clearing `finally` block (phase
`clearing`) is still the very connection the slot refers to; hence the
clear — although the code at bridge_server.py:110 assigns `None`
unconditionally — only ever clears that task's own registration, and a
late termination of a superseded scene connection can never clear a newer
scene's slot (a rejected newcomer returns before the `try`, so it never
reaches `clearing`; a registered scene's slot entry cannot be replaced
before its own `finally` has run). -/
theorem clear_only_own_slot (s : SceneSys) (c : Nat) (hr : Reach s)
    (hc : s.tasks c = some .clearing) : s.slot = some c :=
  reach_active_inv hr c .clearing hc rfl

/-- Witness for C4: connection 0 registers, reads, disconnects; in the
resulting reachable state its phase is `clearing` and the slot still
refers to it. -/
theorem clear_only_own_slot_witness :
    Reach sceneSysExample ∧ sceneSysExample.tasks 0 = some .clearing ∧
      sceneSysExample.slot = some 0 := by
  have h1 : Reach sceneSysInit := .init
  have h2 := Reach.step h1 (SStep.connect sceneSysInit 0 rfl)
  have h3 := Reach.step h2 (SStep.install _ 0 rfl rfl)
  have h4 := Reach.step h3 (SStep.ackOk _ 0 rfl)
  have h5 := Reach.step h4 (SStep.disconnect _ 0 rfl)
  exact ⟨h5, rfl, clear_only_own_slot sceneSysExample 0 h5 rfl⟩

end AFrameBridge
